import Mathlib

/-!
# Verification of the Virtual Stager page logic (`src/index.tsx`)

A shallow embedding of the single source file of the repository.  The
page logic consists of:

* an intake surface (`handleFiles` / `previewFile`): accepts a file from
  the picker or a drop, rejects files whose declared MIME type does not
  start with `"image/"`, and replaces the preview;
* `fileToGenerativePart`: reads the file with `FileReader.readAsDataURL`
  and takes `result.split(',')[1]` as the base64 payload of the request;
* `runRedesigner`: checks three preconditions (API key, file, style),
  switches the page into a loading state, issues one `generateContent`
  call, scans the response parts for the first one carrying inline data,
  and either shows the returned image or an error message, re-enabling
  the generate button in a `finally` block.

DOM state is embedded as an explicit `PageState` record; JavaScript
strings are Lean `String`s (with `List Char` used where we reason about
the characters); the browser's base64 encoding performed by
`readAsDataURL` is modelled by `b64Encode` below, and JavaScript's
`split(',')` by `jsSplitComma`.  The remote call is a parameter of type
`RemoteOutcome`: either the part list of `response.candidates[0].content`
or the message of a rejection caught by the `catch` block.
-/

namespace VStager

/-- A browser `File`: its raw bytes (each `< 256`) and its declared MIME
type (`File.type` in the DOM API, an arbitrary printable string). -/
structure File where
  bytes : List Nat
  type : String
  deriving DecidableEq

/-- A `Part` of the `@google/genai` API: either a text fragment or an
inline-data fragment carrying base64 data and a MIME type. -/
inductive Part where
  | text (s : String)
  | inlineData (data : String) (mimeType : String)
  deriving DecidableEq

/-- Response modalities requested from the model. -/
inductive Modality where
  | image
  | text
  deriving DecidableEq

/-- The argument of `ai.models.generateContent` as built at
`src/index.tsx:167`–`175`. -/
structure GenerationRequest where
  model : String
  parts : List Part
  responseModalities : List Modality
  deriving DecidableEq

/-- Outcome of the `try` block's remote call: the ordered part list of
`response.candidates[0].content.parts`, or the message of an error
caught by the `catch` block (network failure, rejected promise). -/
inductive RemoteOutcome where
  | ok (parts : List Part)
  | err (msg : String)
  deriving DecidableEq

/-- The preview `<img>` placed into `image-preview-container`. -/
structure PreviewImage where
  src : String
  alt : String
  deriving DecidableEq

/-- The observable DOM state the page logic reads and writes:
the generate button's `disabled` flag, the output image's visibility
(`style.display`), `src` and `alt`, the output placeholder's visibility
and `textContent`, the preview container's content, the list of `alert`
dialogs raised so far, and the list of remote calls issued so far. -/
structure PageState where
  generateDisabled : Bool
  outputImageVisible : Bool
  outputImageSrc : String
  outputImageAlt : String
  placeholderVisible : Bool
  placeholderText : String
  previewContent : Option PreviewImage
  alerts : List String
  remoteCalls : List GenerationRequest
  deriving DecidableEq

/-! ## Base64 (the encoding performed by `FileReader.readAsDataURL`) -/

/-- The standard base64 alphabet. -/
def b64Alphabet : List Char :=
  "ABCDEFGHIJKLMNOPQRSTUVWXYZabcdefghijklmnopqrstuvwxyz0123456789+/".data

/-- The alphabet character of a six-bit group (all uses have `n < 64`,
so the `% 64` is the identity there). -/
def sextetToChar (n : Nat) : Char :=
  b64Alphabet.getD (n % 64) 'A'

/-- Index of a character in the base64 alphabet, `none` for characters
outside it (including the padding character). -/
def charToSextet (c : Char) : Option Nat :=
  b64Alphabet.findIdx? (fun a => a == c)

/-- Base64 encoding of a byte list, three bytes to four characters,
with `=` padding, as produced by `readAsDataURL`. -/
def b64Encode : List Nat → List Char
  | [] => []
  | [a] => [sextetToChar (a / 4), sextetToChar (a % 4 * 16), '=', '=']
  | [a, b] => [sextetToChar (a / 4), sextetToChar (a % 4 * 16 + b / 16),
      sextetToChar (b % 16 * 4), '=']
  | a :: b :: c :: rest =>
    sextetToChar (a / 4) :: sextetToChar (a % 4 * 16 + b / 16) ::
      sextetToChar (b % 16 * 4 + c / 64) :: sextetToChar (c % 64) :: b64Encode rest

/-- Base64 decoding, four characters to three bytes, honouring `=`
padding at the end; `none` on any character outside the alphabet or a
length that is not a multiple of four. -/
def b64Decode : List Char → Option (List Nat)
  | [] => some []
  | c1 :: c2 :: c3 :: c4 :: rest =>
    if c3 = '=' ∧ c4 = '=' ∧ rest = [] then
      match charToSextet c1, charToSextet c2 with
      | some n1, some n2 => some [n1 * 4 + n2 / 16]
      | _, _ => none
    else if c4 = '=' ∧ rest = [] then
      match charToSextet c1, charToSextet c2, charToSextet c3 with
      | some n1, some n2, some n3 =>
        some [n1 * 4 + n2 / 16, n2 % 16 * 16 + n3 / 4]
      | _, _, _ => none
    else
      match charToSextet c1, charToSextet c2, charToSextet c3, charToSextet c4,
          b64Decode rest with
      | some n1, some n2, some n3, some n4, some bs =>
        some ((n1 * 4 + n2 / 16) :: (n2 % 16 * 16 + n3 / 4) :: (n3 % 4 * 64 + n4) :: bs)
      | _, _, _, _, _ => none
  | _ => none

/-! ## JavaScript's `split(',')` -/

/-- Prepend a character to the first segment of a split result. -/
def consHead (c : Char) : List (List Char) → List (List Char)
  | [] => [[c]]
  | seg :: segs => (c :: seg) :: segs

/-- Model of `str.split(',')` of JavaScript on a character list: the list of
comma-free segments, in order, one more segment than there are commas. -/
def jsSplitComma : List Char → List (List Char)
  | [] => [[]]
  | c :: rest =>
    if c = ',' then
      [] :: jsSplitComma rest
    else
      consHead c (jsSplitComma rest)

/-! ## The intake surface and `fileToGenerativePart` -/

/-- Model of `FileReader.readAsDataURL`: a data URL embedding the blob's declared
MIME type verbatim and the base64 encoding of its bytes
(`data:<type>;base64,<payload>`). -/
def readAsDataURL (f : File) : String :=
  String.mk ("data:".data ++ f.type.data ++ ";base64,".data ++ b64Encode f.bytes)

/-- Message of the alert raised at `src/index.tsx:94`. -/
def selectImageAlert : String := "Please select an image file."

/-- Model of `file.type.startsWith('image/')` (`src/index.tsx:91`), on the
character list of the declared type. -/
def startsWithImage (t : String) : Bool :=
  "image/".data.isPrefixOf t.data

/-- Model of `previewFile` (`src/index.tsx:98`–`108`): the `<img>` put into the
preview container, with the data URL as `src`. -/
def previewImageOf (f : File) : PreviewImage :=
  { src := readAsDataURL f, alt := "Preview of the uploaded room image." }

/-- Model of `handleFiles` (`src/index.tsx:89`–`96`): takes `files[0]`; an image
file (declared type starting with `"image/"`) replaces the preview, any
other file — or an empty list — raises an alert and changes nothing. -/
def handleFiles (files : List File) (s : PageState) : PageState :=
  match files[0]? with
  | some f =>
    if startsWithImage f.type then
      { s with previewContent := some (previewImageOf f) }
    else
      { s with alerts := s.alerts ++ [selectImageAlert] }
  | none => { s with alerts := s.alerts ++ [selectImageAlert] }

/-- Model of `fileToGenerativePart` (`src/index.tsx:112`–`122`): reads the file as
a data URL, splits on commas and takes index 1 as the `data` field
(`(reader.result as string).split(',')[1]`), with the file's declared
type as `mimeType`.  A data URL always contains a comma, so index 1
exists; the default `[]` is never used. -/
def fileToGenerativePart (f : File) : Part :=
  Part.inlineData (String.mk ((jsSplitComma (readAsDataURL f).data).getD 1 []))
    f.type

/-! ## The redesign exchange (`runRedesigner`) -/

/-- Truthiness of `process.env.API_KEY`: `undefined` (here `none`) and
the empty string are falsy. -/
def keyConfigured : Option String → Bool
  | none => false
  | some k => !(k == "")

/-- Alert of `src/index.tsx:127` (missing API key). -/
def apiKeyAlert : String :=
  "API key is not configured. Please set the environment variable."

/-- Alert of `src/index.tsx:135` (no file selected). -/
def uploadAlert : String := "Please upload an image first."

/-- Alert of `src/index.tsx:139` (empty style field). -/
def styleAlert : String := "Please enter a desired style."

/-- Placeholder text of the loading state (`src/index.tsx:146`). -/
def generatingMessage : String :=
  "✨ Generating your new room... Please wait."

/-- Message of the error thrown at `src/index.tsx:192` when no part of
the response carried (non-empty) inline data. -/
def noImageMessage : String :=
  "The model did not return an image. Please try again."

/-- The placeholder text written by the `catch` block
(`src/index.tsx:196`). -/
def errorBanner (msg : String) : String :=
  "Sorry, an error occurred: " ++ msg

/-- The `alt` text of the output image (`src/index.tsx:189`). -/
def altText (stylePrompt : String) : String :=
  "Redesigned room in the style of " ++ stylePrompt

/-- The instruction template of `src/index.tsx:156`–`164`, up to the
opening quote around the interpolated style. -/
def instructionBefore : String :=
  "\n          You are a photoshop expert AI. Your task is to perform an inpainting-style edit on the provided image.\n\n          **The Mask:** The \"editable\" area of the image is all furniture, the floor, the rug, and the walls.\n  \n          **The Unchanged Area:** The \"uneditable\" area is the window, the window frame, the light coming from the window, and the ceiling. You MUST NOT change these parts. Preserve them exactly as they are in the original image.\n  \n          **The Task:** Within the \"editable\" area only, redesign the room to match this style: \""

/-- The tail of the instruction template after the interpolated style. -/
def instructionAfter : String := "\"\n        "

/-- The text part of the request: the fixed template with the style
string interpolated. -/
def promptText (stylePrompt : String) : String :=
  instructionBefore ++ stylePrompt ++ instructionAfter

/-- The `generateContent` argument built at `src/index.tsx:167`–`175`:
the image part, then the text part, requesting image and text response
modalities from the fixed model. -/
def buildRequest (f : File) (stylePrompt : String) : GenerationRequest :=
  { model := "gemini-2.5-flash-image-preview",
    parts := [fileToGenerativePart f, Part.text (promptText stylePrompt)],
    responseModalities := [Modality.image, Modality.text] }

/-- The loop of `src/index.tsx:177`–`183`: scan the parts in order and
take the `data` of the first part whose `inlineData` is present,
breaking out of the loop there. -/
def extractFirstInlineData : List Part → Option String
  | [] => none
  | Part.inlineData d _ :: _ => some d
  | Part.text _ :: rest => extractFirstInlineData rest

/-- Whether a part carries inline data. -/
def isInlinePart : Part → Bool
  | Part.inlineData _ _ => true
  | Part.text _ => false

/-- The loading-state update of `src/index.tsx:144`–`147`, applied after
the preconditions pass and before the remote call: button disabled,
output image hidden, placeholder shows the progress message. -/
def duringCallState (s : PageState) : PageState :=
  { s with generateDisabled := true,
           outputImageVisible := false,
           placeholderText := generatingMessage,
           placeholderVisible := true }

/-- Record of the single `generateContent` call issued by the `try`
block. -/
def issueRequest (f : File) (stylePrompt : String) (s : PageState) : PageState :=
  { s with remoteCalls := s.remoteCalls ++ [buildRequest f stylePrompt] }

/-- The `catch` block (`src/index.tsx:194`–`198`): placeholder shows the
error banner, output image hidden.  (The `console.error` diagnostic is
not part of the observable page state.) -/
def catchErrorState (msg : String) (s : PageState) : PageState :=
  { s with placeholderText := errorBanner msg,
           placeholderVisible := true,
           outputImageVisible := false }

/-- Lines 177–198: extract the first inline-data payload; if it is
present and non-empty (`if (base64Image)` — the empty string is falsy),
show it as a jpeg data URL and hide the placeholder; otherwise the
thrown error, like an error of the remote call itself, lands in the
`catch` block. -/
def applyRemoteOutcome (stylePrompt : String) (outcome : RemoteOutcome)
    (s : PageState) : PageState :=
  match outcome with
  | RemoteOutcome.ok parts =>
    match extractFirstInlineData parts with
    | some d =>
      if d = "" then
        catchErrorState noImageMessage s
      else
        { s with placeholderVisible := false,
                 outputImageSrc := "data:image/jpeg;base64," ++ d,
                 outputImageAlt := altText stylePrompt,
                 outputImageVisible := true }
    | none => catchErrorState noImageMessage s
  | RemoteOutcome.err msg => catchErrorState msg s

/-- Model of `runRedesigner` (`src/index.tsx:124`–`202`).  The three
preconditions are checked in order, each returning early with an alert
(rendered here as nested conditionals); once they pass, the page enters
the loading state, the single request is issued, the outcome is applied,
and the `finally` block re-enables the generate button. -/
def runRedesigner (apiKey : Option String) (fileSel : Option File)
    (stylePrompt : String) (outcome : RemoteOutcome) (s : PageState) : PageState :=
  if keyConfigured apiKey then
    match fileSel with
    | none => { s with alerts := s.alerts ++ [uploadAlert] }
    | some f =>
      if stylePrompt = "" then
        { s with alerts := s.alerts ++ [styleAlert] }
      else
        let s1 := issueRequest f stylePrompt (duringCallState s)
        let s2 := applyRemoteOutcome stylePrompt outcome s1
        { s2 with generateDisabled := false }
  else
    { s with alerts := s.alerts ++ [apiKeyAlert] }

/-! ## Derived notions used to state the claims -/

/-- The alert of the first violated precondition, in the source's check
order: credential, then image, then style. -/
def firstViolation (apiKey : Option String) (fileSel : Option File)
    (stylePrompt : String) : Option String :=
  if keyConfigured apiKey then
    match fileSel with
    | none => some uploadAlert
    | some _ => if stylePrompt = "" then some styleAlert else none
  else
    some apiKeyAlert

/-- Whether the outcome makes the exchange succeed: the remote call
resolved and the first inline-data part carries a non-empty payload. -/
def outcomeHasImage : RemoteOutcome → Bool
  | RemoteOutcome.ok parts =>
    match extractFirstInlineData parts with
    | some d => if d = "" then false else true
    | none => false
  | RemoteOutcome.err _ => false

/-- The message the `catch` block receives on a failing outcome. -/
def failureMessage : RemoteOutcome → String
  | RemoteOutcome.ok _ => noImageMessage
  | RemoteOutcome.err msg => msg

/-! ## Concrete inputs used by witnesses and counterexamples -/

/-- A three-byte png file. -/
def demoFile : File := { bytes := [1, 2, 3], type := "image/png" }

/-- A file whose declared MIME type is a parsable MIME type (a quoted
parameter value may contain a comma) yet contains a comma. -/
def commaFile : File := { bytes := [1, 2, 3], type := "image/png;a=\"b,c\"" }

/-- A page state in which a previous exchange has left an output image
visible. -/
def richState : PageState :=
  { generateDisabled := false,
    outputImageVisible := true,
    outputImageSrc := "data:image/jpeg;base64,AAAA",
    outputImageAlt := "Redesigned room in the style of old",
    placeholderVisible := false,
    placeholderText := "old placeholder",
    previewContent := none,
    alerts := [],
    remoteCalls := [] }

/-- A blank initial page state. -/
def blankState : PageState :=
  { generateDisabled := false,
    outputImageVisible := false,
    outputImageSrc := "",
    outputImageAlt := "",
    placeholderVisible := true,
    placeholderText := "Your redesigned room will appear here.",
    previewContent := none,
    alerts := [],
    remoteCalls := [] }

/-! ## Base64 lemmas -/

/-- Looking a sextet's character back up in the alphabet recovers the
sextet. -/
theorem charToSextet_sextetToChar (n : Nat) (h : n < 64) :
    charToSextet (sextetToChar n) = some n := by
  have key : ∀ m, m < 64 → charToSextet (b64Alphabet.getD m 'A') = some m := by decide
  unfold sextetToChar
  rw [Nat.mod_eq_of_lt h]
  exact key n h

/-- No alphabet character is the padding character. -/
theorem sextetToChar_ne_pad (n : Nat) : sextetToChar n ≠ '=' := by
  have key : ∀ m, m < 64 → b64Alphabet.getD m 'A' ≠ '=' := by decide
  unfold sextetToChar
  exact key (n % 64) (Nat.mod_lt n (by norm_num))

/-- No alphabet character is a comma. -/
theorem sextetToChar_ne_comma (n : Nat) : sextetToChar n ≠ ',' := by
  have key : ∀ m, m < 64 → b64Alphabet.getD m 'A' ≠ ',' := by decide
  unfold sextetToChar
  exact key (n % 64) (Nat.mod_lt n (by norm_num))

/-- Decoding inverts encoding on byte lists. -/
theorem b64Encode_decode : ∀ bs : List Nat, (∀ b ∈ bs, b < 256) →
    b64Decode (b64Encode bs) = some bs
  | [], _ => rfl
  | [a], h => by
    have ha : a < 256 := h a (by simp)
    have h1 := charToSextet_sextetToChar (a / 4) (by omega)
    have h2 := charToSextet_sextetToChar (a % 4 * 16) (by omega)
    rw [b64Encode, b64Decode, if_pos ⟨rfl, rfl, rfl⟩, h1, h2]
    show some [a / 4 * 4 + a % 4 * 16 / 16] = some [a]
    have e : a / 4 * 4 + a % 4 * 16 / 16 = a := by omega
    rw [e]
  | [a, b], h => by
    have ha : a < 256 := h a (by simp)
    have hb : b < 256 := h b (by simp)
    have h1 := charToSextet_sextetToChar (a / 4) (by omega)
    have h2 := charToSextet_sextetToChar (a % 4 * 16 + b / 16) (by omega)
    have h3 := charToSextet_sextetToChar (b % 16 * 4) (by omega)
    have hp3 := sextetToChar_ne_pad (b % 16 * 4)
    rw [b64Encode, b64Decode, if_neg (fun hcon => hp3 hcon.1), if_pos ⟨rfl, rfl⟩,
      h1, h2, h3]
    show some [a / 4 * 4 + (a % 4 * 16 + b / 16) / 16,
      (a % 4 * 16 + b / 16) % 16 * 16 + b % 16 * 4 / 4] = some [a, b]
    have e : a / 4 * 4 + (a % 4 * 16 + b / 16) / 16 = a ∧
        (a % 4 * 16 + b / 16) % 16 * 16 + b % 16 * 4 / 4 = b := by omega
    rw [e.1, e.2]
  | a :: b :: c :: rest, h => by
    have ha : a < 256 := h a (by simp)
    have hb : b < 256 := h b (by simp)
    have hc : c < 256 := h c (by simp)
    have hrest : ∀ x ∈ rest, x < 256 := fun x hx => h x (by simp [hx])
    have ih := b64Encode_decode rest hrest
    have h1 := charToSextet_sextetToChar (a / 4) (by omega)
    have h2 := charToSextet_sextetToChar (a % 4 * 16 + b / 16) (by omega)
    have h3 := charToSextet_sextetToChar (b % 16 * 4 + c / 64) (by omega)
    have h4 := charToSextet_sextetToChar (c % 64) (by omega)
    have hp3 := sextetToChar_ne_pad (b % 16 * 4 + c / 64)
    have hp4 := sextetToChar_ne_pad (c % 64)
    rw [b64Encode, b64Decode, if_neg (fun hcon => hp3 hcon.1),
      if_neg (fun hcon => hp4 hcon.1), h1, h2, h3, h4, ih]
    show some ((a / 4 * 4 + (a % 4 * 16 + b / 16) / 16) ::
      ((a % 4 * 16 + b / 16) % 16 * 16 + (b % 16 * 4 + c / 64) / 4) ::
      ((b % 16 * 4 + c / 64) % 4 * 64 + c % 64) :: rest) = some (a :: b :: c :: rest)
    have e : a / 4 * 4 + (a % 4 * 16 + b / 16) / 16 = a ∧
        (a % 4 * 16 + b / 16) % 16 * 16 + (b % 16 * 4 + c / 64) / 4 = b ∧
        (b % 16 * 4 + c / 64) % 4 * 64 + c % 64 = c := by omega
    rw [e.1, e.2.1, e.2.2]

/-- The encoder emits no comma. -/
theorem comma_not_mem_b64Encode : ∀ bs : List Nat, ',' ∉ b64Encode bs
  | [] => by simp [b64Encode]
  | [a] => by
    intro hmem
    rw [b64Encode] at hmem
    simp only [List.mem_cons, List.not_mem_nil, or_false] at hmem
    rcases hmem with hx | hx | hx | hx
    · exact sextetToChar_ne_comma _ hx.symm
    · exact sextetToChar_ne_comma _ hx.symm
    · exact absurd hx (by decide)
    · exact absurd hx (by decide)
  | [a, b] => by
    intro hmem
    rw [b64Encode] at hmem
    simp only [List.mem_cons, List.not_mem_nil, or_false] at hmem
    rcases hmem with hx | hx | hx | hx
    · exact sextetToChar_ne_comma _ hx.symm
    · exact sextetToChar_ne_comma _ hx.symm
    · exact sextetToChar_ne_comma _ hx.symm
    · exact absurd hx (by decide)
  | a :: b :: c :: rest => by
    have ih := comma_not_mem_b64Encode rest
    intro hmem
    rw [b64Encode] at hmem
    simp only [List.mem_cons] at hmem
    rcases hmem with hx | hx | hx | hx | hx
    · exact sextetToChar_ne_comma _ hx.symm
    · exact sextetToChar_ne_comma _ hx.symm
    · exact sextetToChar_ne_comma _ hx.symm
    · exact sextetToChar_ne_comma _ hx.symm
    · exact ih hx

/-! ## `split(',')` lemmas -/

/-- On a comma-free string the split returns the single segment. -/
theorem jsSplitComma_no_comma : ∀ xs : List Char, ',' ∉ xs → jsSplitComma xs = [xs]
  | [], _ => rfl
  | c :: rest, h => by
    have hc : ¬ c = ',' := fun hcc => h (by simp [hcc])
    have hrest : ',' ∉ rest := fun hr => h (List.mem_cons_of_mem _ hr)
    rw [jsSplitComma, if_neg hc, jsSplitComma_no_comma rest hrest]
    rfl

/-- Splitting a string whose head segment is comma-free peels that
segment off at the first comma. -/
theorem jsSplitComma_append (xs ys : List Char) (h : ',' ∉ xs) :
    jsSplitComma (xs ++ ',' :: ys) = xs :: jsSplitComma ys := by
  induction xs with
  | nil => rw [List.nil_append, jsSplitComma, if_pos rfl]
  | cons c rest ih =>
    have hc : ¬ c = ',' := fun hcc => h (by simp [hcc])
    have hrest : ',' ∉ rest := fun hr => h (List.mem_cons_of_mem _ hr)
    rw [List.cons_append, jsSplitComma, if_neg hc, ih hrest]
    rfl

/-- Evaluation of `fileToGenerativePart` on a file whose declared type is comma-free:
the `data` field is exactly the base64 encoding of the bytes. -/
theorem fileToGenerativePart_eq (f : File) (hc : ',' ∉ f.type.data) :
    fileToGenerativePart f =
      Part.inlineData (String.mk (b64Encode f.bytes)) f.type := by
  have hpre : ',' ∉ ("data:".data ++ f.type.data ++ ";base64".data) := by
    intro hmem
    rcases List.mem_append.mp hmem with hmem | hmem
    · rcases List.mem_append.mp hmem with hmem | hmem
      · exact absurd hmem (by decide)
      · exact hc hmem
    · exact absurd hmem (by decide)
  have hassoc : "data:".data ++ f.type.data ++ ";base64,".data ++ b64Encode f.bytes
      = ("data:".data ++ f.type.data ++ ";base64".data) ++ (',' :: b64Encode f.bytes) := by
    have hsplit : (";base64,".data : List Char) = ";base64".data ++ [','] := by decide
    rw [hsplit]
    simp [List.append_assoc]
  show Part.inlineData (String.mk ((jsSplitComma
      ("data:".data ++ f.type.data ++ ";base64,".data ++ b64Encode f.bytes)).getD 1 []))
      f.type = _
  rw [hassoc, jsSplitComma_append _ _ hpre,
    jsSplitComma_no_comma _ (comma_not_mem_b64Encode f.bytes)]
  rfl

/-! ## Structural lemmas about the exchange -/

/-- The scan takes the data of the first inline part, whatever follows. -/
theorem extractFirstInlineData_append (pre : List Part) (d m : String)
    (post : List Part) (hpre : ∀ p ∈ pre, isInlinePart p = false) :
    extractFirstInlineData (pre ++ Part.inlineData d m :: post) = some d := by
  induction pre with
  | nil => rfl
  | cons p rest ih =>
    cases p with
    | text t =>
      exact ih (fun q hq => hpre q (List.mem_cons_of_mem _ hq))
    | inlineData dd mm =>
      exact absurd (hpre _ (List.mem_cons_self _ _)) (by simp [isInlinePart])

/-- Applying the remote outcome never touches the recorded calls. -/
theorem applyRemoteOutcome_remoteCalls (stylePrompt : String) (o : RemoteOutcome)
    (s : PageState) : (applyRemoteOutcome stylePrompt o s).remoteCalls = s.remoteCalls := by
  cases o with
  | ok parts =>
    cases hx : extractFirstInlineData parts with
    | none => simp [applyRemoteOutcome, hx, catchErrorState]
    | some d =>
      by_cases hd : d = "" <;> simp [applyRemoteOutcome, hx, hd, catchErrorState]
  | err m => simp [applyRemoteOutcome, catchErrorState]

/-- Applying the remote outcome never touches the button. -/
theorem applyRemoteOutcome_generateDisabled (stylePrompt : String) (o : RemoteOutcome)
    (s : PageState) :
    (applyRemoteOutcome stylePrompt o s).generateDisabled = s.generateDisabled := by
  cases o with
  | ok parts =>
    cases hx : extractFirstInlineData parts with
    | none => simp [applyRemoteOutcome, hx, catchErrorState]
    | some d =>
      by_cases hd : d = "" <;> simp [applyRemoteOutcome, hx, hd, catchErrorState]
  | err m => simp [applyRemoteOutcome, catchErrorState]

/-- The output image ends up visible exactly on a successful outcome. -/
theorem applyRemoteOutcome_outputImageVisible (stylePrompt : String)
    (o : RemoteOutcome) (s : PageState) :
    (applyRemoteOutcome stylePrompt o s).outputImageVisible = outcomeHasImage o := by
  cases o with
  | ok parts =>
    cases hx : extractFirstInlineData parts with
    | none => simp [applyRemoteOutcome, outcomeHasImage, hx, catchErrorState]
    | some d =>
      by_cases hd : d = "" <;>
        simp [applyRemoteOutcome, outcomeHasImage, hx, hd, catchErrorState]
  | err m => simp [applyRemoteOutcome, outcomeHasImage, catchErrorState]

/-- The placeholder ends up visible exactly on a failing outcome. -/
theorem applyRemoteOutcome_placeholderVisible (stylePrompt : String)
    (o : RemoteOutcome) (s : PageState) :
    (applyRemoteOutcome stylePrompt o s).placeholderVisible = !outcomeHasImage o := by
  cases o with
  | ok parts =>
    cases hx : extractFirstInlineData parts with
    | none => simp [applyRemoteOutcome, outcomeHasImage, hx, catchErrorState]
    | some d =>
      by_cases hd : d = "" <;>
        simp [applyRemoteOutcome, outcomeHasImage, hx, hd, catchErrorState]
  | err m => simp [applyRemoteOutcome, outcomeHasImage, catchErrorState]

/-- On a failing outcome, applying it is exactly the `catch` block with
the corresponding message. -/
theorem applyRemoteOutcome_failure (stylePrompt : String) (o : RemoteOutcome)
    (s : PageState) (hfail : outcomeHasImage o = false) :
    applyRemoteOutcome stylePrompt o s = catchErrorState (failureMessage o) s := by
  cases o with
  | ok parts =>
    cases hx : extractFirstInlineData parts with
    | none => simp [applyRemoteOutcome, failureMessage, hx]
    | some d =>
      by_cases hd : d = ""
      · simp [applyRemoteOutcome, failureMessage, hx, hd]
      · simp [outcomeHasImage, hx, hd] at hfail
  | err m => simp [applyRemoteOutcome, failureMessage]

/-- On a successful outcome, applying it shows the image. -/
theorem applyRemoteOutcome_success (stylePrompt : String) (parts : List Part)
    (d : String) (s : PageState) (hx : extractFirstInlineData parts = some d)
    (hd : d ≠ "") :
    applyRemoteOutcome stylePrompt (RemoteOutcome.ok parts) s =
      { s with placeholderVisible := false,
               outputImageSrc := "data:image/jpeg;base64," ++ d,
               outputImageAlt := altText stylePrompt,
               outputImageVisible := true } := by
  simp [applyRemoteOutcome, hx, hd]

/-! ## The claims -/

/-- C1: the exchange scans the response parts in order and extracts the
data of the first part carrying inline binary content, ignoring text
parts before it and every part after the first match. -/
theorem first_inline_part_wins (pre : List Part) (d m : String) (post : List Part)
    (hpre : ∀ p ∈ pre, isInlinePart p = false) :
    extractFirstInlineData (pre ++ Part.inlineData d m :: post) = some d :=
  extractFirstInlineData_append pre d m post hpre

/-- C1 witness: two text parts precede the inline part at index 2; a
later inline part is ignored. -/
theorem first_inline_part_wins_witness :
    extractFirstInlineData [Part.text "a", Part.text "b",
      Part.inlineData "xyz" "image/png", Part.inlineData "zzz" "image/jpeg"]
      = some "xyz" :=
  first_inline_part_wins [Part.text "a", Part.text "b"] "xyz" "image/png"
    [Part.inlineData "zzz" "image/jpeg"] (by decide)

/-- C2: the generate operation checks credential, image and style in
that order, alerts on the first violated precondition, changes nothing
else, and issues no remote call. -/
theorem precondition_short_circuit (k : Option String) (fileSel : Option File)
    (style : String) (o : RemoteOutcome) (s : PageState) (msg : String)
    (h : firstViolation k fileSel style = some msg) :
    runRedesigner k fileSel style o s = { s with alerts := s.alerts ++ [msg] } ∧
    (runRedesigner k fileSel style o s).remoteCalls = s.remoteCalls := by
  cases hk : keyConfigured k with
  | false =>
    simp only [firstViolation, hk, Bool.false_eq_true, if_false,
      Option.some.injEq] at h
    subst h
    constructor <;> simp [runRedesigner, hk]
  | true =>
    cases fileSel with
    | none =>
      simp only [firstViolation, hk, if_true, Option.some.injEq] at h
      subst h
      constructor <;> simp [runRedesigner, hk]
    | some f =>
      by_cases hstyle : style = ""
      · simp only [firstViolation, hk, if_true, hstyle, if_pos rfl,
          Option.some.injEq] at h
        subst h
        constructor <;> simp [runRedesigner, hk, hstyle]
      · simp [firstViolation, hk, hstyle] at h

/-- C2 witness: an empty style field with key and file present alerts
with the style message and issues no remote call. -/
theorem precondition_short_circuit_witness :
    runRedesigner (some "key") (some demoFile) "" (RemoteOutcome.err "e") blankState
      = { blankState with alerts := blankState.alerts ++ [styleAlert] } ∧
    (runRedesigner (some "key") (some demoFile) "" (RemoteOutcome.err "e")
      blankState).remoteCalls = blankState.remoteCalls :=
  precondition_short_circuit (some "key") (some demoFile) "" (RemoteOutcome.err "e")
    blankState styleAlert (by decide)

/-- C3: every request the exchange issues is recorded, and it carries
exactly one image part and one text part, the image part first. -/
theorem request_one_image_then_one_text (k : Option String) (f : File)
    (style : String) (o : RemoteOutcome) (s : PageState)
    (hk : keyConfigured k = true) (hs : style ≠ "") :
    (runRedesigner k (some f) style o s).remoteCalls
      = s.remoteCalls ++ [buildRequest f style] ∧
    ∃ d m t, (buildRequest f style).parts = [Part.inlineData d m, Part.text t] := by
  constructor
  · simp [runRedesigner, hk, hs, applyRemoteOutcome_remoteCalls, issueRequest,
      duringCallState]
  · exact ⟨_, _, _, rfl⟩

/-- C3 witness at a concrete key, file, style and outcome. -/
theorem request_one_image_then_one_text_witness :
    (runRedesigner (some "key") (some demoFile) "modern" (RemoteOutcome.err "e")
      blankState).remoteCalls = blankState.remoteCalls ++ [buildRequest demoFile "modern"] ∧
    ∃ d m t, (buildRequest demoFile "modern").parts
      = [Part.inlineData d m, Part.text t] :=
  request_one_image_then_one_text (some "key") demoFile "modern"
    (RemoteOutcome.err "e") blankState rfl (by decide)

/-- C4: once the preconditions pass, the trigger is disabled in the
loading state that holds for the duration of the remote call, and the
`finally` block re-enables it on every outcome. -/
theorem trigger_disabled_then_reenabled (k : Option String) (f : File)
    (style : String) (o : RemoteOutcome) (s : PageState)
    (hk : keyConfigured k = true) (hs : style ≠ "") :
    (duringCallState s).generateDisabled = true ∧
    (runRedesigner k (some f) style o s).generateDisabled = false := by
  constructor
  · rfl
  · simp [runRedesigner, hk, hs]

/-- C4 witness: on a failing outcome the button is re-enabled. -/
theorem trigger_disabled_then_reenabled_witness :
    (duringCallState blankState).generateDisabled = true ∧
    (runRedesigner (some "key") (some demoFile) "modern" (RemoteOutcome.err "boom")
      blankState).generateDisabled = false :=
  trigger_disabled_then_reenabled (some "key") demoFile "modern"
    (RemoteOutcome.err "boom") blankState rfl (by decide)

/-- C5: after the exchange completes, the output image is visible
exactly on success and the placeholder exactly on failure — never both,
never neither. -/
theorem output_image_xor_placeholder (k : Option String) (f : File)
    (style : String) (o : RemoteOutcome) (s : PageState)
    (hk : keyConfigured k = true) (hs : style ≠ "") :
    (runRedesigner k (some f) style o s).outputImageVisible = outcomeHasImage o ∧
    (runRedesigner k (some f) style o s).placeholderVisible = !outcomeHasImage o := by
  constructor <;>
    simp [runRedesigner, hk, hs, applyRemoteOutcome_outputImageVisible,
      applyRemoteOutcome_placeholderVisible]

/-- C5 witness: a successful outcome shows the image and hides the
placeholder. -/
theorem output_image_xor_placeholder_witness :
    (runRedesigner (some "key") (some demoFile) "modern"
      (RemoteOutcome.ok [Part.text "t", Part.inlineData "Zm9v" "image/png"])
      blankState).outputImageVisible
      = outcomeHasImage (RemoteOutcome.ok [Part.text "t", Part.inlineData "Zm9v" "image/png"]) ∧
    (runRedesigner (some "key") (some demoFile) "modern"
      (RemoteOutcome.ok [Part.text "t", Part.inlineData "Zm9v" "image/png"])
      blankState).placeholderVisible
      = !outcomeHasImage (RemoteOutcome.ok [Part.text "t", Part.inlineData "Zm9v" "image/png"]) :=
  output_image_xor_placeholder (some "key") demoFile "modern"
    (RemoteOutcome.ok [Part.text "t", Part.inlineData "Zm9v" "image/png"])
    blankState rfl (by decide)

/-- C6 counterexample: a missing credential is a failure of the
exchange, yet it only raises an alert dialog — the previously shown
output image stays visible and the output surface text is untouched, so
the claim "every failure surfaces a message in the output surface and
hides any prior output image" is false at this input. -/
theorem missing_credential_leaves_output_untouched :
    (runRedesigner none (some demoFile) "modern" (RemoteOutcome.err "network down")
      richState).alerts = [apiKeyAlert] ∧
    (runRedesigner none (some demoFile) "modern" (RemoteOutcome.err "network down")
      richState).outputImageVisible = true ∧
    (runRedesigner none (some demoFile) "modern" (RemoteOutcome.err "network down")
      richState).placeholderText = "old placeholder" := by
  decide

/-- C6 amended: every failure of the exchange after the preconditions
pass — remote error or response without a non-empty inline image —
surfaces `Sorry, an error occurred: …` in the output surface and hides
any prior output image; a missing credential instead surfaces its
message as an alert dialog and leaves the output surface unchanged. -/
theorem failure_banner_or_alert (k : Option String) (f : File) (style : String)
    (o : RemoteOutcome) (s : PageState) :
    (keyConfigured k = true → style ≠ "" → outcomeHasImage o = false →
      (runRedesigner k (some f) style o s).placeholderText
        = errorBanner (failureMessage o) ∧
      (runRedesigner k (some f) style o s).placeholderVisible = true ∧
      (runRedesigner k (some f) style o s).outputImageVisible = false) ∧
    (keyConfigured k = false →
      runRedesigner k (some f) style o s
        = { s with alerts := s.alerts ++ [apiKeyAlert] }) := by
  constructor
  · intro hk hs hfail
    refine ⟨?_, ?_, ?_⟩ <;>
      simp [runRedesigner, hk, hs, applyRemoteOutcome_failure _ _ _ hfail,
        catchErrorState]
  · intro hk
    simp [runRedesigner, hk]

/-- C6 amended witness: a network error after the preconditions pass
shows the error banner and hides the previously visible image. -/
theorem failure_banner_or_alert_witness :
    (runRedesigner (some "key") (some demoFile) "modern"
      (RemoteOutcome.err "network down") richState).placeholderText
      = errorBanner (failureMessage (RemoteOutcome.err "network down")) ∧
    (runRedesigner (some "key") (some demoFile) "modern"
      (RemoteOutcome.err "network down") richState).placeholderVisible = true ∧
    (runRedesigner (some "key") (some demoFile) "modern"
      (RemoteOutcome.err "network down") richState).outputImageVisible = false :=
  (failure_banner_or_alert (some "key") demoFile "modern"
    (RemoteOutcome.err "network down") richState).1 rfl (by decide) rfl

/-- C7: a file whose declared MIME type does not begin with `image/`
only raises an alert and leaves the preview unchanged; a file whose
type does begin with `image/` replaces the preview. -/
theorem intake_accepts_only_images (f : File) (rest : List File) (s : PageState) :
    (startsWithImage f.type = false →
      handleFiles (f :: rest) s = { s with alerts := s.alerts ++ [selectImageAlert] }) ∧
    (startsWithImage f.type = true →
      handleFiles (f :: rest) s = { s with previewContent := some (previewImageOf f) }) := by
  constructor <;> intro h <;> simp [handleFiles, h]

/-- C7 witness: a text file is rejected with the preview untouched; a
png file replaces the preview. -/
theorem intake_accepts_only_images_witness :
    handleFiles [{ bytes := [1], type := "text/plain" }] blankState
      = { blankState with alerts := blankState.alerts ++ [selectImageAlert] } ∧
    handleFiles [demoFile] blankState
      = { blankState with previewContent := some (previewImageOf demoFile) } :=
  ⟨(intake_accepts_only_images { bytes := [1], type := "text/plain" } [] blankState).1
      (by decide),
    (intake_accepts_only_images demoFile [] blankState).2 (by decide)⟩

/-- C8 counterexample: the declared MIME type `image/png;a="b,c"` (a
parsable MIME type — a quoted parameter value may contain a comma)
makes `split(',')[1]` return a slice of the type instead of the base64
payload, so the part's data is not the encoding of the file's bytes and
cannot be decoded back. -/
theorem comma_mime_type_breaks_encoding :
    fileToGenerativePart commaFile
      = Part.inlineData "c\";base64" "image/png;a=\"b,c\"" ∧
    String.mk (b64Encode commaFile.bytes) = "AQID" ∧
    ("c\";base64" : String) ≠ "AQID" ∧
    b64Decode ("c\";base64" : String).data ≠ some commaFile.bytes := by
  decide

/-- C8 amended: for every selected file whose declared MIME type
contains no comma, the image part carries the base64 encoding of the
file's bytes as its data and the declared type as its `mimeType`, and
decoding the data recovers the bytes. -/
theorem image_part_base64_round_trip (f : File) (hc : ',' ∉ f.type.data)
    (hb : ∀ b ∈ f.bytes, b < 256) :
    fileToGenerativePart f = Part.inlineData (String.mk (b64Encode f.bytes)) f.type ∧
    b64Decode (b64Encode f.bytes) = some f.bytes :=
  ⟨fileToGenerativePart_eq f hc, b64Encode_decode f.bytes hb⟩

/-- C8 amended witness at a concrete png file. -/
theorem image_part_base64_round_trip_witness :
    fileToGenerativePart demoFile
      = Part.inlineData (String.mk (b64Encode demoFile.bytes)) demoFile.type ∧
    b64Decode (b64Encode demoFile.bytes) = some demoFile.bytes :=
  image_part_base64_round_trip demoFile (by decide) (by decide)

/-- C9: on success the displayed image's source is a data URL with the
hardcoded `image/jpeg` MIME type, whatever MIME type the response's
inline part declared. -/
theorem success_hardcodes_jpeg (k : Option String) (f : File) (style : String)
    (parts : List Part) (d : String) (s : PageState)
    (hk : keyConfigured k = true) (hs : style ≠ "")
    (hx : extractFirstInlineData parts = some d) (hd : d ≠ "") :
    (runRedesigner k (some f) style (RemoteOutcome.ok parts) s).outputImageSrc
      = "data:image/jpeg;base64," ++ d := by
  simp [runRedesigner, hk, hs, applyRemoteOutcome_success _ _ _ _ hx hd]

/-- C9 witness: the response part declares `image/png`, the shown source
still says `image/jpeg`. -/
theorem success_hardcodes_jpeg_witness :
    (runRedesigner (some "key") (some demoFile) "modern"
      (RemoteOutcome.ok [Part.inlineData "QUJD" "image/png"])
      blankState).outputImageSrc = "data:image/jpeg;base64," ++ "QUJD" :=
  success_hardcodes_jpeg (some "key") demoFile "modern"
    [Part.inlineData "QUJD" "image/png"] "QUJD" blankState rfl (by decide) rfl
    (by decide)

/-- C10: when the first inline-data part carries the empty string, the
scan still stops there, but `if (base64Image)` treats it as missing, so
the failure path runs: error banner shown, output image hidden — even
if a later part carries a non-empty image. -/
theorem empty_inline_data_is_failure (k : Option String) (f : File) (style : String)
    (pre : List Part) (m : String) (post : List Part) (s : PageState)
    (hk : keyConfigured k = true) (hs : style ≠ "")
    (hpre : ∀ p ∈ pre, isInlinePart p = false) :
    extractFirstInlineData (pre ++ Part.inlineData "" m :: post) = some "" ∧
    (runRedesigner k (some f) style
      (RemoteOutcome.ok (pre ++ Part.inlineData "" m :: post)) s).placeholderText
      = errorBanner noImageMessage ∧
    (runRedesigner k (some f) style
      (RemoteOutcome.ok (pre ++ Part.inlineData "" m :: post)) s).placeholderVisible
      = true ∧
    (runRedesigner k (some f) style
      (RemoteOutcome.ok (pre ++ Part.inlineData "" m :: post)) s).outputImageVisible
      = false := by
  have hx := extractFirstInlineData_append pre "" m post hpre
  have hfail : outcomeHasImage
      (RemoteOutcome.ok (pre ++ Part.inlineData "" m :: post)) = false := by
    simp [outcomeHasImage, hx]
  refine ⟨hx, ?_, ?_, ?_⟩ <;>
    simp [runRedesigner, hk, hs, applyRemoteOutcome_failure _ _ _ hfail,
      catchErrorState, failureMessage]

/-- C10 witness: the empty-data part comes first, a good image part
follows, and the failure path still runs. -/
theorem empty_inline_data_is_failure_witness :
    extractFirstInlineData ([Part.text "t"] ++ Part.inlineData "" "image/png"
      :: [Part.inlineData "Zm9v" "image/png"]) = some "" ∧
    (runRedesigner (some "key") (some demoFile) "modern"
      (RemoteOutcome.ok ([Part.text "t"] ++ Part.inlineData "" "image/png"
        :: [Part.inlineData "Zm9v" "image/png"])) blankState).placeholderText
      = errorBanner noImageMessage ∧
    (runRedesigner (some "key") (some demoFile) "modern"
      (RemoteOutcome.ok ([Part.text "t"] ++ Part.inlineData "" "image/png"
        :: [Part.inlineData "Zm9v" "image/png"])) blankState).placeholderVisible
      = true ∧
    (runRedesigner (some "key") (some demoFile) "modern"
      (RemoteOutcome.ok ([Part.text "t"] ++ Part.inlineData "" "image/png"
        :: [Part.inlineData "Zm9v" "image/png"])) blankState).outputImageVisible
      = false :=
  empty_inline_data_is_failure (some "key") demoFile "modern" [Part.text "t"]
    "image/png" [Part.inlineData "Zm9v" "image/png"] blankState rfl (by decide)
    (by decide)

end VStager
